import Mathlib

/-!
Shallow embedding of the warp signature attestation backend and the
signature-request handler layer of the `luxdefi/evm` repository
(`sync/handlers`), together with proofs about the properties the design
document states for them.

The repository fragment under verification contains the provider
interfaces (`BlockProvider`, `SnapshotProvider`) and the handler tests
(`TestMessageSignatureHandler`, `TestBlockSignatureHandler`); the backend
(`warp.NewBackend`, `AddMessage`, `GetMessageSignature`,
`GetBlockSignature`) and the handler (`NewSignatureRequestHandler`,
`OnMessageSignatureRequest`, `OnBlockSignatureRequest`, `handlerStats`)
are declared and exercised there but their bodies are elsewhere; those
are modelled below from the design document, with every behaviour the
tests pin down (response encoding on hit and miss, counter updates,
on-demand block signing) taken from the tests' assertions.

Bytes are modelled as `Nat`, byte strings as `List Nat`, machine
counters as `Nat` (the counters only ever increment by one, far from any
overflow the source's 64-bit counters could see).
-/

/-- Length in bytes of a BLS signature (`bls.SignatureLen` in the source). -/
def signatureLen : Nat := 96

/-- A signature: a byte string (of length `signatureLen` when produced by a signer). -/
abbrev Signature := List Nat

/-- A content identifier: a fixed-width digest identifying an unsigned message
or a block, equality is byte equality.  Modelled as a byte string. -/
abbrev ContentID := List Nat

/-- An unsigned warp message: origin metadata plus arbitrary payload bytes
(`luxWarp.UnsignedMessage` in the source). -/
structure UnsignedMessage where
  networkID : Nat
  sourceChainID : Nat
  payload : List Nat
deriving DecidableEq

/-- Serialized bytes of an unsigned message.  The length prefix on the payload
makes the serialization injective, as the source's canonical encoding is. -/
def UnsignedMessage.bytes (m : UnsignedMessage) : List Nat :=
  m.networkID :: m.sourceChainID :: m.payload.length :: m.payload

/-- `msg.ID()`: the deterministic digest of a message.  The cryptographic hash
is modelled, collision-freely, as the serialized bytes themselves. -/
def UnsignedMessage.ID (m : UnsignedMessage) : ContentID :=
  m.bytes

/-- Lookup in the durable attestation store (a key-value database keyed by
content identifier), modelled as an association list. -/
def storeGet (s : List (ContentID × UnsignedMessage)) (k : ContentID) :
    Option UnsignedMessage :=
  (s.find? (fun p => p.1 == k)).map Prod.snd

/-- Write to the durable attestation store; overwrites any previous binding. -/
def storePut (s : List (ContentID × UnsignedMessage)) (k : ContentID)
    (v : UnsignedMessage) : List (ContentID × UnsignedMessage) :=
  (k, v) :: s.filter (fun p => !(p.1 == k))

/-- Lookup in the bounded signature cache (most-recently-used entry first). -/
def cacheGet (c : List (ContentID × Signature)) (k : ContentID) :
    Option Signature :=
  (c.find? (fun p => p.1 == k)).map Prod.snd

/-- Insert into the signature cache: the entry moves to the front
(most-recently-used position) and the least-recently-used entries beyond
the capacity `cap` are evicted. -/
def cachePut (cap : Nat) (c : List (ContentID × Signature)) (k : ContentID)
    (v : Signature) : List (ContentID × Signature) :=
  ((k, v) :: c.filter (fun p => !(p.1 == k))).take cap

/-- The error taxonomy of the attestation backend, from the design document. -/
inductive AttestError where
  | UnknownBlock
  | StoreFailure
  | SigningFailure
deriving DecidableEq

/-- Modelled from the spec: the attestation backend state
(`warp.Backend` is not under the verified fragment).  It composes the
durable attestation store, the bounded LRU signature cache, a
deterministic signing capability over bytes, and a chain-state reader
that reports whether a block identifier resolves to a locally-accepted
block (the test's `GetBlockF` returns an accepted block or an error). -/
structure Backend where
  networkID : Nat
  chainID : Nat
  sign : List Nat → Signature
  getAcceptedBlock : ContentID → Bool
  store : List (ContentID × UnsignedMessage)
  cache : List (ContentID × Signature)
  cacheSize : Nat

/-- `warp.NewBackend`: a fresh backend with empty store and cache. -/
def NewBackend (networkID chainID : Nat) (sign : List Nat → Signature)
    (getAcceptedBlock : ContentID → Bool) (cacheSize : Nat) : Backend :=
  { networkID := networkID, chainID := chainID, sign := sign,
    getAcceptedBlock := getAcceptedBlock, store := [], cache := [],
    cacheSize := cacheSize }

/-- The canonical unsigned message attesting to a block: payload is the block
identifier, origin metadata is this backend's network and chain. -/
def Backend.blockMessage (b : Backend) (blkID : ContentID) : UnsignedMessage :=
  { networkID := b.networkID, sourceChainID := b.chainID, payload := blkID }

/-- Modelled from the spec: `Backend.AddMessage` (the spec's `AttestMessage`;
body not under the verified fragment).  Records the message in the store
keyed by its content identifier if not already present, then eagerly
computes and caches its signature.  The store write and the signing are
pure in the model, so the `StoreFailure`/`SigningFailure` paths of the
design document cannot fire and the returned error is always `none`. -/
def Backend.AddMessage (b : Backend) (m : UnsignedMessage) :
    Option AttestError × Backend :=
  let key := m.ID
  let store1 :=
    match storeGet b.store key with
    | some _ => b.store
    | none => storePut b.store key m
  let sig := b.sign m.bytes
  (none, { b with store := store1, cache := cachePut b.cacheSize b.cache key sig })

/-- Modelled from the spec: `AttestBlock` (body not under the verified
fragment).  Resolves the identifier through the chain-state reader; fails
with `UnknownBlock`, leaving the state untouched, when no locally-accepted
block has that identifier; otherwise behaves as `AddMessage` on the
canonical block-attestation message. -/
def Backend.attestBlock (b : Backend) (blkID : ContentID) :
    Option AttestError × Backend :=
  if b.getAcceptedBlock blkID then
    b.AddMessage (b.blockMessage blkID)
  else
    (some AttestError.UnknownBlock, b)

/-- Modelled from the spec: `Backend.GetMessageSignature` (body not under the
verified fragment).  Checks the signature cache first (the hit refreshes
the entry's recency), else the durable store, computing and caching the
signature on demand, else reports not-found (`none`) without error. -/
def Backend.GetMessageSignature (b : Backend) (id : ContentID) :
    Option Signature × Backend :=
  match cacheGet b.cache id with
  | some sig =>
    (some sig, { b with cache := cachePut b.cacheSize b.cache id sig })
  | none =>
    match storeGet b.store id with
    | some m =>
      let sig := b.sign m.bytes
      (some sig, { b with cache := cachePut b.cacheSize b.cache id sig })
    | none => (none, b)

/-- Modelled from the spec and the test: `Backend.GetBlockSignature` (body not
under the verified fragment).  Resolution order is that of
`GetMessageSignature`, keyed by the block's canonical attestation
encoding; when neither cache nor store has it, the test
(`TestBlockSignatureHandler`, which calls `GetBlockSignature` with no
prior `AttestBlock`) shows the backend resolves the block through the
chain-state reader and signs it on demand, caching the result. -/
def Backend.GetBlockSignature (b : Backend) (blkID : ContentID) :
    Option Signature × Backend :=
  let key := (b.blockMessage blkID).ID
  match b.GetMessageSignature key with
  | (some sig, b1) => (some sig, b1)
  | (none, _) =>
    if b.getAcceptedBlock blkID then
      let sig := b.sign (b.blockMessage blkID).bytes
      (some sig, { b with cache := cachePut b.cacheSize b.cache key sig })
    else
      (none, b)

/-- `message.SignatureResponse`: the typed response carrying a signature. -/
structure SignatureResponse where
  signature : Signature
deriving DecidableEq

/-- The codec version tag the shared codec writes before the payload. -/
def codecVersion : Nat := 0

/-- The shared deterministic codec's `Marshal` for `SignatureResponse`:
a version tag followed by the signature bytes.  Always non-empty. -/
def Codec.marshal (r : SignatureResponse) : List Nat :=
  codecVersion :: r.signature

/-- The shared deterministic codec's `Unmarshal` for `SignatureResponse`:
the inverse of `Codec.marshal`, failing on an empty payload or a wrong
version tag. -/
def Codec.unmarshal (bs : List Nat) : Option SignatureResponse :=
  match bs with
  | [] => none
  | v :: rest => if v == codecVersion then some { signature := rest } else none

/-- The signature carried by a miss response: `bls.SignatureLen` zero bytes
(the test's `emptySignature := [bls.SignatureLen]byte{}`). -/
def emptySignature : Signature :=
  List.replicate signatureLen 0

/-- `message.MessageSignatureRequest`: a peer's ask for the signature over a
message, by message identifier. -/
structure MessageSignatureRequest where
  messageID : ContentID
deriving DecidableEq

/-- `message.BlockSignatureRequest`: a peer's ask for the signature attesting
to a block, by block identifier. -/
structure BlockSignatureRequest where
  blockID : ContentID
deriving DecidableEq

/-- Modelled from the spec: `handlerStats` (body not under the verified
fragment; field names and the counters verified are those the tests
read).  One (request, hit, miss) counter triple per request kind. -/
structure handlerStats where
  messageSignatureRequest : Nat
  messageSignatureHit : Nat
  messageSignatureMiss : Nat
  blockSignatureRequest : Nat
  blockSignatureHit : Nat
  blockSignatureMiss : Nat
deriving DecidableEq

/-- `handlerStats.Clear`: reset every counter to zero (used by the tests). -/
def handlerStats.Clear (_ : handlerStats) : handlerStats :=
  { messageSignatureRequest := 0, messageSignatureHit := 0,
    messageSignatureMiss := 0, blockSignatureRequest := 0,
    blockSignatureHit := 0, blockSignatureMiss := 0 }

/-- The signature request handler: backend reference plus owned stats. -/
structure SignatureRequestHandler where
  backend : Backend
  stats : handlerStats

/-- `NewSignatureRequestHandler`: a handler over the given backend with fresh
counters. -/
def NewSignatureRequestHandler (b : Backend) : SignatureRequestHandler :=
  { backend := b,
    stats := { messageSignatureRequest := 0, messageSignatureHit := 0,
               messageSignatureMiss := 0, blockSignatureRequest := 0,
               blockSignatureHit := 0, blockSignatureMiss := 0 } }

/-- What a handler call returns: the response bytes and the error of the Go
signature `(responseBytes, err)`, plus the updated handler state. -/
structure HandlerOutput where
  responseBytes : List Nat
  err : Option AttestError
  handler : SignatureRequestHandler

/-- Modelled from the spec and the test: `OnMessageSignatureRequest` (body not
under the verified fragment).  Counts the request; on a backend hit counts
the hit and encodes the signature, on a miss counts the miss and encodes a
`SignatureResponse` whose signature is `emptySignature` — the test
unmarshals the miss response and compares it to `emptySignature[:]`.
Either way the returned error is nil. -/
def OnMessageSignatureRequest (h : SignatureRequestHandler) (_nodeID : Nat)
    (_requestID : Nat) (req : MessageSignatureRequest) : HandlerOutput :=
  let stats1 :=
    { h.stats with
      messageSignatureRequest := h.stats.messageSignatureRequest + 1 }
  match h.backend.GetMessageSignature req.messageID with
  | (some sig, b1) =>
    { responseBytes := Codec.marshal { signature := sig }, err := none,
      handler :=
        { backend := b1,
          stats :=
            { stats1 with
              messageSignatureHit := stats1.messageSignatureHit + 1 } } }
  | (none, b1) =>
    { responseBytes := Codec.marshal { signature := emptySignature },
      err := none,
      handler :=
        { backend := b1,
          stats :=
            { stats1 with
              messageSignatureMiss := stats1.messageSignatureMiss + 1 } } }

/-- Modelled from the spec and the test: `OnBlockSignatureRequest` (body not
under the verified fragment), symmetric to `OnMessageSignatureRequest`
using block resolution and the block counters. -/
def OnBlockSignatureRequest (h : SignatureRequestHandler) (_nodeID : Nat)
    (_requestID : Nat) (req : BlockSignatureRequest) : HandlerOutput :=
  let stats1 :=
    { h.stats with
      blockSignatureRequest := h.stats.blockSignatureRequest + 1 }
  match h.backend.GetBlockSignature req.blockID with
  | (some sig, b1) =>
    { responseBytes := Codec.marshal { signature := sig }, err := none,
      handler :=
        { backend := b1,
          stats :=
            { stats1 with
              blockSignatureHit := stats1.blockSignatureHit + 1 } } }
  | (none, b1) =>
    { responseBytes := Codec.marshal { signature := emptySignature },
      err := none,
      handler :=
        { backend := b1,
          stats :=
            { stats1 with
              blockSignatureMiss := stats1.blockSignatureMiss + 1 } } }

/-- A block as the sync-data `BlockProvider` serves it (`*types.Block` is
opaque at this boundary). -/
structure Block where
  bytes : List Nat
deriving DecidableEq

/-- The `BlockProvider` interface of `sync/handlers`:
`GetBlock(common.Hash, uint64) *types.Block` — a hash and a height hint to
an optional block, with no error channel in the signature. -/
structure BlockProvider where
  GetBlock : Nat → Nat → Option Block

/-- A concrete deterministic signer for concrete executions: a fixed-length
byte string derived from the input bytes. -/
def signTest (bs : List Nat) : Signature :=
  List.replicate signatureLen (bs.foldl (fun a x => a + x) 1 % 256)

/-- The test's message: payload `"test"` with concrete origin metadata. -/
def testMessage : UnsignedMessage :=
  { networkID := 1, sourceChainID := 2, payload := [116, 101, 115, 116] }

/-- A backend whose chain-state reader accepts nothing, as in
`TestMessageSignatureHandler`. -/
def testMessageBackend0 : Backend :=
  NewBackend 1 2 signTest (fun _ => false) 100

/-- The message-test backend after `AddMessage(testMessage)`. -/
def testMessageBackend : Backend :=
  (testMessageBackend0.AddMessage testMessage).2

/-- The block identifier the block-test chain-state reader accepts. -/
def blkIDTest : ContentID := [7]

/-- A backend whose reader accepts exactly `blkIDTest`, as in
`TestBlockSignatureHandler`. -/
def testBlockBackend : Backend :=
  NewBackend 1 2 signTest (fun i => i == blkIDTest) 100

/-- An identifier unrelated to anything attested (the tests'
`ids.GenerateTestID()`). -/
def unknownID : ContentID := [9, 9, 9]

/-- The net result of the message-signature resolution order as a pure
function of the backend state: cache first, then store. -/
def Backend.lookupMessageSignature (b : Backend) (id : ContentID) :
    Option Signature :=
  match cacheGet b.cache id with
  | some sig => some sig
  | none => (storeGet b.store id).map (fun m => b.sign m.bytes)

/-- The net result of the block-signature resolution order as a pure function
of the backend state: cache, then store, then on-demand signing of a
locally-accepted block. -/
def Backend.lookupBlockSignature (b : Backend) (blkID : ContentID) :
    Option Signature :=
  match b.lookupMessageSignature (b.blockMessage blkID).ID with
  | some sig => some sig
  | none =>
    if b.getAcceptedBlock blkID then
      some (b.sign (b.blockMessage blkID).bytes)
    else
      none

theorem cachePut_zero (c : List (ContentID × Signature)) (k : ContentID)
    (v : Signature) : cachePut 0 c k v = [] := rfl

theorem cacheGet_nil (k : ContentID) : cacheGet ([] : List (ContentID × Signature)) k = none := rfl

theorem cacheGet_cachePut_self (cap : Nat) (hcap : 0 < cap)
    (c : List (ContentID × Signature)) (k : ContentID) (v : Signature) :
    cacheGet (cachePut cap c k v) k = some v := by
  obtain ⟨n, rfl⟩ : ∃ n, cap = n + 1 := ⟨cap - 1, by omega⟩
  simp [cacheGet, cachePut, List.take_succ_cons, List.find?_cons_of_pos]

theorem storeGet_storePut_self (s : List (ContentID × UnsignedMessage))
    (k : ContentID) (v : UnsignedMessage) :
    storeGet (storePut s k v) k = some v := by
  simp [storeGet, storePut, List.find?_cons_of_pos]

theorem cachePut_length_le (cap : Nat) (c : List (ContentID × Signature))
    (k : ContentID) (v : Signature) : (cachePut cap c k v).length ≤ cap := by
  simp only [cachePut, List.length_take]
  exact Nat.min_le_left _ _

theorem cacheGet_length_pos (c : List (ContentID × Signature)) (k : ContentID)
    (s : Signature) (h : cacheGet c k = some s) : 0 < c.length := by
  cases c with
  | nil => simp [cacheGet] at h
  | cons a l => simp

theorem GetMessageSignature_fst (b : Backend) (id : ContentID) :
    (b.GetMessageSignature id).1 = b.lookupMessageSignature id := by
  unfold Backend.GetMessageSignature Backend.lookupMessageSignature
  cases h1 : cacheGet b.cache id
  · cases h2 : storeGet b.store id <;> rfl
  · rfl

theorem GetMessageSignature_snd_shape (b : Backend) (id : ContentID) :
    ∃ c, (b.GetMessageSignature id).2 = { b with cache := c } := by
  unfold Backend.GetMessageSignature
  cases h1 : cacheGet b.cache id
  · cases h2 : storeGet b.store id
    · exact ⟨b.cache, rfl⟩
    · exact ⟨_, rfl⟩
  · exact ⟨_, rfl⟩

theorem GetMessageSignature_none (b : Backend) (id : ContentID)
    (h : (b.GetMessageSignature id).1 = none) :
    b.GetMessageSignature id = (none, b) := by
  unfold Backend.GetMessageSignature at h ⊢
  cases h1 : cacheGet b.cache id
  · cases h2 : storeGet b.store id
    · rfl
    · rw [h1, h2] at h
      simp at h
  · rw [h1] at h
    simp at h

theorem lookupMessageSignature_eq_none (b : Backend) (id : ContentID) :
    b.lookupMessageSignature id = none ↔
      cacheGet b.cache id = none ∧ storeGet b.store id = none := by
  unfold Backend.lookupMessageSignature
  cases h1 : cacheGet b.cache id
  · cases h2 : storeGet b.store id <;> simp
  · simp

theorem lookupMessageSignature_after_get (b : Backend) (id : ContentID)
    (hinv : b.cache.length ≤ b.cacheSize) :
    ((b.GetMessageSignature id).2).lookupMessageSignature id =
      b.lookupMessageSignature id := by
  unfold Backend.GetMessageSignature
  cases h1 : cacheGet b.cache id with
  | some sig =>
    have hpos : 0 < b.cacheSize :=
      lt_of_lt_of_le (cacheGet_length_pos b.cache id sig h1) hinv
    simp [Backend.lookupMessageSignature, h1,
      cacheGet_cachePut_self b.cacheSize hpos]
  | none =>
    cases h2 : storeGet b.store id with
    | some m =>
      rcases Nat.eq_zero_or_pos b.cacheSize with hz | hpos
      · simp [Backend.lookupMessageSignature, h1, h2, hz, cachePut_zero,
          cacheGet_nil]
      · simp [Backend.lookupMessageSignature, h1, h2,
          cacheGet_cachePut_self b.cacheSize hpos]
    | none => rfl

theorem GetMessageSignature_twice (b : Backend) (id : ContentID)
    (hinv : b.cache.length ≤ b.cacheSize) :
    ((b.GetMessageSignature id).2.GetMessageSignature id).1 =
      (b.GetMessageSignature id).1 := by
  rw [GetMessageSignature_fst, GetMessageSignature_fst,
    lookupMessageSignature_after_get b id hinv]

theorem GetMessageSignature_inv (b : Backend) (id : ContentID)
    (hinv : b.cache.length ≤ b.cacheSize) :
    (b.GetMessageSignature id).2.cache.length ≤
      (b.GetMessageSignature id).2.cacheSize := by
  unfold Backend.GetMessageSignature
  cases h1 : cacheGet b.cache id
  · cases h2 : storeGet b.store id
    · exact hinv
    · exact cachePut_length_le _ _ _ _
  · exact cachePut_length_le _ _ _ _

theorem GetBlockSignature_fst (b : Backend) (blkID : ContentID) :
    (b.GetBlockSignature blkID).1 = b.lookupBlockSignature blkID := by
  unfold Backend.GetBlockSignature Backend.lookupBlockSignature
  rcases hm : b.GetMessageSignature (b.blockMessage blkID).ID with ⟨r, b1⟩
  have hl : b.lookupMessageSignature (b.blockMessage blkID).ID = r := by
    rw [← GetMessageSignature_fst, hm]
  rw [hl]
  cases r
  · cases hacc : b.getAcceptedBlock blkID <;> simp [hm, hacc]
  · simp [hm]

theorem GetBlockSignature_inv (b : Backend) (blkID : ContentID)
    (hinv : b.cache.length ≤ b.cacheSize) :
    (b.GetBlockSignature blkID).2.cache.length ≤
      (b.GetBlockSignature blkID).2.cacheSize := by
  unfold Backend.GetBlockSignature
  rcases hm : b.GetMessageSignature (b.blockMessage blkID).ID with ⟨r, b1⟩
  have hsnd : (b.GetMessageSignature (b.blockMessage blkID).ID).2 = b1 := by
    rw [hm]
  cases r with
  | some sig =>
    simp only [hm]
    rw [← hsnd]
    exact GetMessageSignature_inv b _ hinv
  | none =>
    cases hacc : b.getAcceptedBlock blkID with
    | false => simp [hm, hacc]; exact hinv
    | true =>
      simp only [hm, hacc]
      simp only [if_true]
      exact cachePut_length_le _ _ _ _

theorem lookupBlockSignature_after_get (b : Backend) (blkID : ContentID)
    (hinv : b.cache.length ≤ b.cacheSize) :
    ((b.GetBlockSignature blkID).2).lookupBlockSignature blkID =
      b.lookupBlockSignature blkID := by
  unfold Backend.GetBlockSignature
  rcases hm : b.GetMessageSignature (b.blockMessage blkID).ID with ⟨r, b1⟩
  have hsnd : (b.GetMessageSignature (b.blockMessage blkID).ID).2 = b1 := by
    rw [hm]
  cases r with
  | some sig =>
    obtain ⟨c, hc⟩ := GetMessageSignature_snd_shape b (b.blockMessage blkID).ID
    rw [hsnd] at hc
    have hmsg : b1.lookupMessageSignature (b.blockMessage blkID).ID =
        b.lookupMessageSignature (b.blockMessage blkID).ID := by
      rw [← hsnd]
      exact lookupMessageSignature_after_get b _ hinv
    subst hc
    simp only [hm]
    simp only [Backend.lookupBlockSignature, Backend.blockMessage] at hmsg ⊢
    simp only [hmsg]
  | none =>
    have hfst : b.lookupMessageSignature (b.blockMessage blkID).ID = none := by
      rw [← GetMessageSignature_fst, hm]
    cases hacc : b.getAcceptedBlock blkID with
    | false => simp [hm, hacc]
    | true =>
      obtain ⟨hcg, hsg⟩ := (lookupMessageSignature_eq_none b _).mp hfst
      simp only [hm, hacc, if_true]
      rcases Nat.eq_zero_or_pos b.cacheSize with hz | hpos
      · simp only [Backend.blockMessage] at hcg hsg
        simp [Backend.lookupBlockSignature, Backend.blockMessage,
          Backend.lookupMessageSignature, hz, cachePut_zero, cacheGet_nil,
          hcg, hsg, hacc]
      · simp only [Backend.blockMessage] at hcg hsg
        simp [Backend.lookupBlockSignature, Backend.blockMessage,
          Backend.lookupMessageSignature,
          cacheGet_cachePut_self b.cacheSize hpos, hcg, hsg, hacc]

theorem GetBlockSignature_twice (b : Backend) (blkID : ContentID)
    (hinv : b.cache.length ≤ b.cacheSize) :
    ((b.GetBlockSignature blkID).2.GetBlockSignature blkID).1 =
      (b.GetBlockSignature blkID).1 := by
  rw [GetBlockSignature_fst, GetBlockSignature_fst,
    lookupBlockSignature_after_get b blkID hinv]

theorem AddMessage_def (b : Backend) (m : UnsignedMessage) :
    b.AddMessage m = (none,
      { b with
        store :=
          match storeGet b.store m.ID with
          | some _ => b.store
          | none => storePut b.store m.ID m,
        cache := cachePut b.cacheSize b.cache m.ID (b.sign m.bytes) }) := rfl

theorem AddMessage_inv (b : Backend) (m : UnsignedMessage) :
    (b.AddMessage m).2.cache.length ≤ (b.AddMessage m).2.cacheSize :=
  cachePut_length_le _ _ _ _

theorem storeGet_after_add (b : Backend) (m : UnsignedMessage) :
    ∃ m2, storeGet ((b.AddMessage m).2).store m.ID = some m2 := by
  rw [AddMessage_def]
  cases h2 : storeGet b.store m.ID with
  | none => exact ⟨m, by simp [h2, storeGet_storePut_self]⟩
  | some m2 => exact ⟨m2, by simp [h2]⟩

theorem lookupMessageSignature_after_add (b : Backend) (m : UnsignedMessage) :
    ∃ s, ((b.AddMessage m).2).lookupMessageSignature m.ID = some s := by
  obtain ⟨m2, hm2⟩ := storeGet_after_add b m
  unfold Backend.lookupMessageSignature
  cases h1 : cacheGet ((b.AddMessage m).2).cache m.ID with
  | some sig => exact ⟨sig, rfl⟩
  | none => exact ⟨_, by rw [hm2]; rfl⟩

theorem cachePut_cachePut_self (cap : Nat) (c : List (ContentID × Signature))
    (k : ContentID) (v : Signature) :
    cachePut cap (cachePut cap c k v) k v = cachePut cap c k v := by
  cases cap with
  | zero => rfl
  | succ n =>
    have hF : ∀ a ∈ (c.filter (fun p => !(p.1 == k))).take n,
        (fun p : ContentID × Signature => !(p.1 == k)) a = true := by
      intro a ha
      have ha2 : a ∈ c.filter (fun p => !(p.1 == k)) := List.take_subset n _ ha
      exact (List.mem_filter.mp ha2).2
    simp only [cachePut, List.take_succ_cons]
    rw [List.filter_cons_of_neg]
    · rw [List.filter_eq_self.mpr hF, List.take_take, Nat.min_self]
    · simp

/-- Claim C6: for every block identifier that the chain-state reader cannot
resolve to a locally-accepted block, `attestBlock` fails with
`UnknownBlock` and leaves the attestation store (indeed the whole backend
state) unchanged: no write occurs on the error path. -/
theorem C6_attestBlock_unknown_no_write (b : Backend) (blkID : ContentID)
    (h : b.getAcceptedBlock blkID = false) :
    b.attestBlock blkID = (some AttestError.UnknownBlock, b) ∧
      (b.attestBlock blkID).2.store = b.store := by
  have h1 : b.attestBlock blkID = (some AttestError.UnknownBlock, b) := by
    unfold Backend.attestBlock
    rw [h]
    simp
  exact ⟨h1, by rw [h1]⟩

theorem C6_attestBlock_unknown_no_write_witness :
    testBlockBackend.getAcceptedBlock [8] = false ∧
      testBlockBackend.attestBlock [8] =
        (some AttestError.UnknownBlock, testBlockBackend) :=
  ⟨by decide,
    (C6_attestBlock_unknown_no_write testBlockBackend [8] (by decide)).1⟩

/-- Claim C7: counters are independent per request kind: a message-signature
request leaves all three block-signature counters at their prior values,
and a block-signature request leaves all three message-signature counters
at their prior values. -/
theorem C7_counters_independent (h : SignatureRequestHandler)
    (nodeID requestID : Nat) (reqM : MessageSignatureRequest)
    (reqB : BlockSignatureRequest) :
    ((OnMessageSignatureRequest h nodeID requestID reqM).handler.stats.blockSignatureRequest
        = h.stats.blockSignatureRequest ∧
      (OnMessageSignatureRequest h nodeID requestID reqM).handler.stats.blockSignatureHit
        = h.stats.blockSignatureHit ∧
      (OnMessageSignatureRequest h nodeID requestID reqM).handler.stats.blockSignatureMiss
        = h.stats.blockSignatureMiss) ∧
    ((OnBlockSignatureRequest h nodeID requestID reqB).handler.stats.messageSignatureRequest
        = h.stats.messageSignatureRequest ∧
      (OnBlockSignatureRequest h nodeID requestID reqB).handler.stats.messageSignatureHit
        = h.stats.messageSignatureHit ∧
      (OnBlockSignatureRequest h nodeID requestID reqB).handler.stats.messageSignatureMiss
        = h.stats.messageSignatureMiss) := by
  constructor
  · unfold OnMessageSignatureRequest
    rcases hm : h.backend.GetMessageSignature reqM.messageID with ⟨r, b1⟩
    cases r <;> simp [hm]
  · unfold OnBlockSignatureRequest
    rcases hm : h.backend.GetBlockSignature reqB.blockID with ⟨r, b1⟩
    cases r <;> simp [hm]

/-- Claim C8: `BlockProvider.GetBlock` either returns a block or an absent
result; its return type has no error channel, so "not found" can never be
signalled as an error. -/
theorem C8_GetBlock_no_error (p : BlockProvider) (h : Nat) (heightHint : Nat) :
    (∃ blk, p.GetBlock h heightHint = some blk) ∨
      p.GetBlock h heightHint = none := by
  cases hp : p.GetBlock h heightHint with
  | none => exact Or.inr rfl
  | some blk => exact Or.inl ⟨blk, rfl⟩

/-- Claim C10: for a block identifier never attested (absent from cache and
store under its canonical attestation key) that the chain-state reader
reports as a locally-accepted block, `GetBlockSignature` succeeds and
returns the signature computed on demand over the canonical
block-attestation message. -/
theorem C10_accepted_block_on_demand (b : Backend) (blkID : ContentID)
    (hc : cacheGet b.cache (b.blockMessage blkID).ID = none)
    (hs : storeGet b.store (b.blockMessage blkID).ID = none)
    (hacc : b.getAcceptedBlock blkID = true) :
    (b.GetBlockSignature blkID).1 =
      some (b.sign (b.blockMessage blkID).bytes) := by
  rw [GetBlockSignature_fst]
  have hlook : b.lookupMessageSignature (b.blockMessage blkID).ID = none := by
    simp [Backend.lookupMessageSignature, hc, hs]
  simp [Backend.lookupBlockSignature, hlook, hacc]

theorem C10_accepted_block_on_demand_witness :
    testBlockBackend.getAcceptedBlock blkIDTest = true ∧
    (testBlockBackend.GetBlockSignature blkIDTest).1 =
      some (testBlockBackend.sign (testBlockBackend.blockMessage blkIDTest).bytes) :=
  ⟨by decide,
    C10_accepted_block_on_demand testBlockBackend blkIDTest (by decide)
      (by decide) (by decide)⟩

/-- Claim C1 counterexample: a message-signature request for an identifier the
backend does not know (fresh backend, fresh handler) returns a nil error
and counts a miss, but the response payload is NOT zero-length — it is the
encoding of a `SignatureResponse` carrying an all-zeros signature, exactly
as the test's "unknown message" case asserts by unmarshalling it. -/
theorem C1_counterexample :
    (OnMessageSignatureRequest (NewSignatureRequestHandler testMessageBackend0)
        0 1 { messageID := unknownID }).err = none ∧
    (OnMessageSignatureRequest (NewSignatureRequestHandler testMessageBackend0)
        0 1 { messageID := unknownID }).handler.stats.messageSignatureMiss = 1 ∧
    (OnMessageSignatureRequest (NewSignatureRequestHandler testMessageBackend0)
        0 1 { messageID := unknownID }).responseBytes.length ≠ 0 := by
  decide

/-- Claim C1, amended: for every inbound message- or block-signature request
whose content identifier is not found by the backend, the handler returns
a nil error — never a protocol-level error — together with a non-empty
response payload encoding a `SignatureResponse` whose signature is
`emptySignature` (all-zeros), not a zero-length payload. -/
theorem C1_amended_miss_response (h : SignatureRequestHandler)
    (nodeID requestID : Nat) :
    (∀ req : MessageSignatureRequest,
      (h.backend.GetMessageSignature req.messageID).1 = none →
        (OnMessageSignatureRequest h nodeID requestID req).err = none ∧
        (OnMessageSignatureRequest h nodeID requestID req).responseBytes =
          Codec.marshal { signature := emptySignature } ∧
        (OnMessageSignatureRequest h nodeID requestID req).responseBytes.length
          ≠ 0) ∧
    (∀ req : BlockSignatureRequest,
      (h.backend.GetBlockSignature req.blockID).1 = none →
        (OnBlockSignatureRequest h nodeID requestID req).err = none ∧
        (OnBlockSignatureRequest h nodeID requestID req).responseBytes =
          Codec.marshal { signature := emptySignature } ∧
        (OnBlockSignatureRequest h nodeID requestID req).responseBytes.length
          ≠ 0) := by
  constructor
  · intro req hreq
    rcases hm : h.backend.GetMessageSignature req.messageID with ⟨r, b2⟩
    rw [hm] at hreq
    simp at hreq
    subst hreq
    unfold OnMessageSignatureRequest
    simp [hm, Codec.marshal]
  · intro req hreq
    rcases hm : h.backend.GetBlockSignature req.blockID with ⟨r, b2⟩
    rw [hm] at hreq
    simp at hreq
    subst hreq
    unfold OnBlockSignatureRequest
    simp [hm, Codec.marshal]

theorem C1_amended_miss_response_witness :
    ((NewSignatureRequestHandler testMessageBackend0).backend.GetMessageSignature
        unknownID).1 = none ∧
    ((OnMessageSignatureRequest (NewSignatureRequestHandler testMessageBackend0)
        0 1 { messageID := unknownID }).err = none ∧
      (OnMessageSignatureRequest (NewSignatureRequestHandler testMessageBackend0)
        0 1 { messageID := unknownID }).responseBytes =
        Codec.marshal { signature := emptySignature } ∧
      (OnMessageSignatureRequest (NewSignatureRequestHandler testMessageBackend0)
        0 1 { messageID := unknownID }).responseBytes.length ≠ 0) :=
  ⟨by decide,
    (C1_amended_miss_response (NewSignatureRequestHandler testMessageBackend0)
        0 1).1 { messageID := unknownID } (by decide)⟩

/-- Claim C9: for every signature request about content unknown to the
backend, the handler's response bytes are non-empty and decode via the
codec into a `SignatureResponse` whose signature is exactly
`signatureLen` zero bytes. -/
theorem C9_miss_response_encodes_zero_signature (h : SignatureRequestHandler)
    (nodeID requestID : Nat) :
    (∀ req : MessageSignatureRequest,
      (h.backend.GetMessageSignature req.messageID).1 = none →
        (OnMessageSignatureRequest h nodeID requestID req).responseBytes ≠ [] ∧
        Codec.unmarshal
            (OnMessageSignatureRequest h nodeID requestID req).responseBytes =
          some { signature := List.replicate signatureLen 0 }) ∧
    (∀ req : BlockSignatureRequest,
      (h.backend.GetBlockSignature req.blockID).1 = none →
        (OnBlockSignatureRequest h nodeID requestID req).responseBytes ≠ [] ∧
        Codec.unmarshal
            (OnBlockSignatureRequest h nodeID requestID req).responseBytes =
          some { signature := List.replicate signatureLen 0 }) := by
  constructor
  · intro req hreq
    rcases hm : h.backend.GetMessageSignature req.messageID with ⟨r, b2⟩
    rw [hm] at hreq
    simp at hreq
    subst hreq
    unfold OnMessageSignatureRequest
    simp [hm, Codec.marshal, Codec.unmarshal, emptySignature]
  · intro req hreq
    rcases hm : h.backend.GetBlockSignature req.blockID with ⟨r, b2⟩
    rw [hm] at hreq
    simp at hreq
    subst hreq
    unfold OnBlockSignatureRequest
    simp [hm, Codec.marshal, Codec.unmarshal, emptySignature]

theorem C9_miss_response_encodes_zero_signature_witness :
    ((NewSignatureRequestHandler testBlockBackend).backend.GetBlockSignature
        unknownID).1 = none ∧
    ((OnBlockSignatureRequest (NewSignatureRequestHandler testBlockBackend)
        0 1 { blockID := unknownID }).responseBytes ≠ [] ∧
      Codec.unmarshal
          (OnBlockSignatureRequest (NewSignatureRequestHandler testBlockBackend)
            0 1 { blockID := unknownID }).responseBytes =
        some { signature := List.replicate signatureLen 0 }) :=
  ⟨by decide,
    (C9_miss_response_encodes_zero_signature
        (NewSignatureRequestHandler testBlockBackend) 0 1).2
      { blockID := unknownID } (by decide)⟩

/-- Claim C2 counterexample: `blkIDTest` was never passed to `AddMessage` or
`attestBlock` (the backend's store and cache are empty), yet because the
chain-state reader reports it accepted, `GetBlockSignature` returns a
signature rather than found=false, and the handler counts a hit, not a
miss — exactly the test's "known block" case, which never attests. -/
theorem C2_counterexample :
    testBlockBackend.store = [] ∧ testBlockBackend.cache = [] ∧
    (testBlockBackend.GetBlockSignature blkIDTest).1 ≠ none ∧
    (OnBlockSignatureRequest (NewSignatureRequestHandler testBlockBackend) 0 1
        { blockID := blkIDTest }).handler.stats.blockSignatureMiss = 0 ∧
    (OnBlockSignatureRequest (NewSignatureRequestHandler testBlockBackend) 0 1
        { blockID := blkIDTest }).handler.stats.blockSignatureHit = 1 := by
  decide

/-- Claim C2, amended: for every content identifier absent from the signature
cache and the attestation store (as any identifier never attested is),
`GetMessageSignature` returns found=false (`none`) rather than an error,
and a handler lookup of it increments the message miss counter by exactly
one, leaving the hit counter unchanged; the same holds for
`GetBlockSignature` and the block counters provided the chain-state
reader also fails to resolve the identifier to a locally-accepted block
(if the reader resolves it, the never-attested block is signed on demand
and counts a hit instead). -/
theorem C2_amended_never_attested (nodeID requestID : Nat) :
    (∀ (h : SignatureRequestHandler) (id : ContentID),
      cacheGet h.backend.cache id = none →
      storeGet h.backend.store id = none →
        (h.backend.GetMessageSignature id).1 = none ∧
        (OnMessageSignatureRequest h nodeID requestID
            { messageID := id }).handler.stats.messageSignatureMiss =
          h.stats.messageSignatureMiss + 1 ∧
        (OnMessageSignatureRequest h nodeID requestID
            { messageID := id }).handler.stats.messageSignatureHit =
          h.stats.messageSignatureHit) ∧
    (∀ (h : SignatureRequestHandler) (blkID : ContentID),
      cacheGet h.backend.cache (h.backend.blockMessage blkID).ID = none →
      storeGet h.backend.store (h.backend.blockMessage blkID).ID = none →
      h.backend.getAcceptedBlock blkID = false →
        (h.backend.GetBlockSignature blkID).1 = none ∧
        (OnBlockSignatureRequest h nodeID requestID
            { blockID := blkID }).handler.stats.blockSignatureMiss =
          h.stats.blockSignatureMiss + 1 ∧
        (OnBlockSignatureRequest h nodeID requestID
            { blockID := blkID }).handler.stats.blockSignatureHit =
          h.stats.blockSignatureHit) := by
  constructor
  · intro h id hc hs
    have hfst : (h.backend.GetMessageSignature id).1 = none := by
      rw [GetMessageSignature_fst]
      simp [Backend.lookupMessageSignature, hc, hs]
    rcases hg : h.backend.GetMessageSignature id with ⟨r, b2⟩
    rw [hg] at hfst
    simp at hfst
    subst hfst
    refine ⟨rfl, ?_, ?_⟩ <;>
    · unfold OnMessageSignatureRequest
      simp [hg]
  · intro h blkID hc hs hacc
    have hfst : (h.backend.GetBlockSignature blkID).1 = none := by
      rw [GetBlockSignature_fst]
      have hlookM : h.backend.lookupMessageSignature
          (h.backend.blockMessage blkID).ID = none := by
        simp [Backend.lookupMessageSignature, hc, hs]
      simp [Backend.lookupBlockSignature, hlookM, hacc]
    rcases hg : h.backend.GetBlockSignature blkID with ⟨r, b2⟩
    rw [hg] at hfst
    simp at hfst
    subst hfst
    refine ⟨rfl, ?_, ?_⟩ <;>
    · unfold OnBlockSignatureRequest
      simp [hg]

theorem C2_amended_never_attested_witness :
    (((NewSignatureRequestHandler testMessageBackend0).backend.GetMessageSignature
        unknownID).1 = none ∧
      (OnMessageSignatureRequest (NewSignatureRequestHandler testMessageBackend0)
          0 1 { messageID := unknownID }).handler.stats.messageSignatureMiss =
        (NewSignatureRequestHandler testMessageBackend0).stats.messageSignatureMiss
          + 1) ∧
    (((NewSignatureRequestHandler testBlockBackend).backend.GetBlockSignature
        [8]).1 = none ∧
      (OnBlockSignatureRequest (NewSignatureRequestHandler testBlockBackend)
          0 1 { blockID := [8] }).handler.stats.blockSignatureMiss =
        (NewSignatureRequestHandler testBlockBackend).stats.blockSignatureMiss
          + 1) :=
  ⟨⟨((C2_amended_never_attested 0 1).1
        (NewSignatureRequestHandler testMessageBackend0) unknownID
        (by decide) (by decide)).1,
    ((C2_amended_never_attested 0 1).1
        (NewSignatureRequestHandler testMessageBackend0) unknownID
        (by decide) (by decide)).2.1⟩,
   ⟨((C2_amended_never_attested 0 1).2
        (NewSignatureRequestHandler testBlockBackend) [8]
        (by decide) (by decide) (by decide)).1,
    ((C2_amended_never_attested 0 1).2
        (NewSignatureRequestHandler testBlockBackend) [8]
        (by decide) (by decide) (by decide)).2.1⟩⟩

/-- The first request of the C4 scenario: after attesting `testMessage`, its
own identifier is requested through a fresh handler. -/
def c4run1 : HandlerOutput :=
  OnMessageSignatureRequest (NewSignatureRequestHandler testMessageBackend) 0 1
    { messageID := testMessage.ID }

/-- The second request of the C4 scenario: an unrelated identifier, handled by
the same handler state that served the first request. -/
def c4run2 : HandlerOutput :=
  OnMessageSignatureRequest c4run1.handler 0 2 { messageID := unknownID }

/-- Claim C4 counterexample: in the scenario (attest `"test"`, request its id,
then request an unrelated id) the second request's hit/miss counts are as
the claim says, but its response is NOT empty — it is the encoded
all-zeros `SignatureResponse`. -/
theorem C4_counterexample :
    c4run2.handler.stats.messageSignatureHit = 1 ∧
    c4run2.handler.stats.messageSignatureMiss = 1 ∧
    c4run2.responseBytes ≠ [] := by
  decide

/-- Claim C4, amended: attest the message `"test"`; a handler request for its
id returns the signature bytes recorded at attest time with hit-count 1
and miss-count 0; a subsequent request for an unrelated id through the
same handler returns the encoded all-zeros-signature response (not an
empty payload) with hit-count unchanged at 1 and miss-count 1; both
requests return a nil error. -/
theorem C4_amended_scenario :
    c4run1.responseBytes =
      Codec.marshal { signature := signTest testMessage.bytes } ∧
    c4run1.err = none ∧
    c4run1.handler.stats.messageSignatureHit = 1 ∧
    c4run1.handler.stats.messageSignatureMiss = 0 ∧
    c4run2.err = none ∧
    Codec.unmarshal c4run2.responseBytes = some { signature := emptySignature } ∧
    c4run2.handler.stats.messageSignatureHit = 1 ∧
    c4run2.handler.stats.messageSignatureMiss = 1 := by
  decide

/-- Claim C3: after a successful `AddMessage(m)`, `GetMessageSignature(id(m))`
returns found=true with a signature that is byte-identical across repeated
calls; and after a successful `attestBlock(B)`, two consecutive
`GetBlockSignature(B)` calls return the same signature, whether served
from the cache or recomputed from the store. -/
theorem C3_repeated_lookups_byte_identical :
    (∀ (b b1 : Backend) (m : UnsignedMessage), b.AddMessage m = (none, b1) →
      ∃ s, (b1.GetMessageSignature m.ID).1 = some s ∧
        ((b1.GetMessageSignature m.ID).2.GetMessageSignature m.ID).1 =
          some s) ∧
    (∀ (b b1 : Backend) (blkID : ContentID), b.attestBlock blkID = (none, b1) →
      ∃ s, (b1.GetBlockSignature blkID).1 = some s ∧
        ((b1.GetBlockSignature blkID).2.GetBlockSignature blkID).1 =
          some s) := by
  constructor
  · intro b b1 m hadd
    have hb1 : b1 = (b.AddMessage m).2 := by rw [hadd]
    obtain ⟨s, hs⟩ := lookupMessageSignature_after_add b m
    refine ⟨s, ?_, ?_⟩
    · rw [hb1, GetMessageSignature_fst]
      exact hs
    · rw [hb1, GetMessageSignature_twice _ _ (AddMessage_inv b m),
        GetMessageSignature_fst]
      exact hs
  · intro b b1 blkID hatt
    unfold Backend.attestBlock at hatt
    cases hacc : b.getAcceptedBlock blkID with
    | false =>
      rw [hacc] at hatt
      simp at hatt
    | true =>
      rw [hacc] at hatt
      simp only [if_true] at hatt
      have hb1 : b1 = (b.AddMessage (b.blockMessage blkID)).2 := by rw [hatt]
      obtain ⟨s, hs⟩ := lookupMessageSignature_after_add b (b.blockMessage blkID)
      have hlookB : ((b.AddMessage (b.blockMessage blkID)).2).lookupBlockSignature
          blkID = some s := by
        simp only [AddMessage_def] at hs ⊢
        simp only [Backend.lookupBlockSignature, Backend.blockMessage,
          UnsignedMessage.ID] at hs ⊢
        simp [hs]
      refine ⟨s, ?_, ?_⟩
      · rw [hb1, GetBlockSignature_fst]
        exact hlookB
      · rw [hb1,
          GetBlockSignature_twice _ _ (AddMessage_inv b (b.blockMessage blkID)),
          GetBlockSignature_fst]
        exact hlookB

theorem C3_repeated_lookups_byte_identical_witness :
    testMessageBackend0.AddMessage testMessage = (none, testMessageBackend) ∧
    (∃ s, (testMessageBackend.GetMessageSignature testMessage.ID).1 = some s ∧
      ((testMessageBackend.GetMessageSignature testMessage.ID).2.GetMessageSignature
          testMessage.ID).1 = some s) :=
  ⟨rfl,
    C3_repeated_lookups_byte_identical.1 testMessageBackend0 testMessageBackend
      testMessage rfl⟩

/-- Claim C5: a second `AddMessage(m)` after a successful first call returns
no error and is a complete no-op on the backend state, so the recorded
signature cannot differ from the one the first call produced. -/
theorem C5_AddMessage_idempotent (b b1 : Backend) (m : UnsignedMessage)
    (h : b.AddMessage m = (none, b1)) :
    b1.AddMessage m = (none, b1) := by
  rw [AddMessage_def] at h
  injection h with herr hb1
  subst hb1
  rw [AddMessage_def]
  simp only [Prod.mk.injEq, true_and]
  cases h2 : storeGet b.store m.ID with
  | some m2 => simp [h2, cachePut_cachePut_self]
  | none => simp [h2, storeGet_storePut_self, cachePut_cachePut_self]

theorem C5_AddMessage_idempotent_witness :
    testMessageBackend.AddMessage testMessage = (none, testMessageBackend) :=
  C5_AddMessage_idempotent testMessageBackend0 testMessageBackend testMessage rfl
